import Mathlib

/-!
Shallow embedding of the `ape-beacon` plugin (files `ape_beacon/provider.py`
and `ape_beacon/__init__.py`) and proofs of the specification claims.

Modelling conventions:
* A JSON-like upstream response that is inspected with
  `"data" not in resp or "<key>" not in resp["data"]` is modelled as
  `Option (Option α)`: `none` means the `"data"` key is absent, `some none`
  means `"data"` is present but the inner key is absent, and `some (some v)`
  means both keys are present with payload `v`.
* Python exceptions become `Except ApeError` results.  The upstream client's
  `get_deposit_contract` is modelled as possibly raising, because
  `chain_id` explicitly catches `ProviderNotConnectedError` around that call;
  the other endpoints are modelled by the responses they return (HTTP-layer
  exceptions are unhandled by the source, cf. its `TODO: handle
  raise_for_status errors from Beacon` comments, and outside the model).
* The block payload type `P`, decoded block type `B` and transaction type `T`
  are opaque type parameters.
-/

namespace ApeBeacon

/-- `LOCAL_NETWORK_NAME` imported from `ape.api.networks`. -/
def LOCAL_NETWORK_NAME : String := "local"

/-- Two-level JSON-like response, see the module docstring. -/
abbrev Resp (α : Type) := Option (Option α)

/-- The source's missing-field check
`"data" not in resp or "<key>" not in resp["data"]`. -/
def respMissing {α : Type} : Resp α → Bool
  | some (some _) => false
  | _ => true

/-- `ape.types.BlockID`: an integer or a string block identifier. -/
inductive BlockID where
  | int (n : Int)
  | str (s : String)
  deriving DecidableEq, Repr

/-- Python `str(block_id)`. -/
def BlockID.toStr : BlockID → String
  | .int n => toString n
  | .str s => s

/-- The exception types raised by the provider (`ProviderNotConnectedError`,
`BlockNotFoundError`, `ValidatorNotFoundError`, `APINotImplementedError`). -/
inductive ApeError where
  | providerNotConnected
  | blockNotFound (block_id : BlockID)
  | validatorNotFound (address : String)
  | apiNotImplemented (msg : String)
  deriving DecidableEq, Repr

/-- The external `web3.beacon.Beacon` client, modelled by the responses its
endpoints produce.  `get_block` and `get_validator` are keyed by the string
argument the provider passes. -/
structure Beacon (P : Type) where
  get_version : Resp String
  get_health : Int
  get_deposit_contract : Except ApeError (Resp Int)
  get_block : String → Resp P
  get_validator : String → Resp Int

/-- The host ecosystem, of which the provider only uses `decode_block`. -/
structure Ecosystem (P B : Type) where
  decode_block : P → B

/-- The provider's network: its name, statically configured chain ID and
ecosystem. -/
structure Network (P B : Type) where
  name : String
  chain_id : Int
  ecosystem : Ecosystem P B

/-- State of a `BeaconProvider` instance: the optional client handle
`_beacon`, the cached `_client_version`, and the network it serves. -/
structure BeaconProvider (P B : Type) where
  _beacon : Option (Beacon P)
  _client_version : Option String
  network : Network P B

variable {P B T : Type}

/-- The `beacon` property: raises `ProviderNotConnectedError` when the
client handle is absent (`if not self._beacon`), else returns the handle. -/
def BeaconProvider.beacon (p : BeaconProvider P B) : Except ApeError (Beacon P) :=
  match p._beacon with
  | none => .error .providerNotConnected
  | some b => .ok b

/-- `client_version`: returns `""` when the handle is absent; when the cache
`_client_version` is unset, fetches `get_version`, returning `""` when the
response lacks `data`/`data.version` and caching the version otherwise;
returns the cached value when set.  The returned provider carries the updated
cache (Python mutates `self._client_version`). -/
def BeaconProvider.client_version (p : BeaconProvider P B) :
    String × BeaconProvider P B :=
  match p._beacon with
  | none => ("", p)
  | some b =>
    match p._client_version with
    | some v => (v, p)
    | none =>
      match b.get_version with
      | some (some v) => (v, { p with _client_version := some v })
      | _ => ("", p)

def BeaconProvider.base_fee (_p : BeaconProvider P B) : Except ApeError Int :=
  .error (.apiNotImplemented "base_fee is not implemented by this provider.")

def BeaconProvider.max_gas (_p : BeaconProvider P B) : Except ApeError Int :=
  .error (.apiNotImplemented "max_gas is not implemented by this provider.")

def BeaconProvider.supports_tracing (_p : BeaconProvider P B) : Except ApeError Bool :=
  .error (.apiNotImplemented "supports_tracing is not implemented by this provider.")

def BeaconProvider.estimate_gas_cost (_p : BeaconProvider P B) (_txn : T) :
    Except ApeError Int :=
  .error (.apiNotImplemented "estimate_gas_cost is not implemented by this provider.")

def BeaconProvider.gas_price (_p : BeaconProvider P B) : Except ApeError Int :=
  .error (.apiNotImplemented "gas_price is not implemented by this provider.")

def BeaconProvider.priority_fee (_p : BeaconProvider P B) : Except ApeError Int :=
  .error (.apiNotImplemented "priority_fee is not implemented by this provider.")

def BeaconProvider.get_nonce (_p : BeaconProvider P B) (_address : String) :
    Except ApeError Int :=
  .error (.apiNotImplemented "get_nonce is not implemented by this provider.")

/-- `is_connected`: `False` when `_beacon is None`, else whether the health
check returns status code 200. -/
def BeaconProvider.is_connected (p : BeaconProvider P B) : Bool :=
  match p._beacon with
  | none => false
  | some b => b.get_health == 200

/-- Python `name.endswith(post)`, modelled executably as a suffix test on the
character list (core's `String.endsWith` is implemented on `Substring` by
well-founded recursion, which does not reduce and has no lemmas). -/
def strEndsWith (s post : String) : Bool :=
  post.data.isSuffixOf s.data

/-- The live-network test from `chain_id`:
`name not in ("adhoc", LOCAL_NETWORK_NAME) and not name.endswith("-fork")`. -/
def isLiveNetworkName (name : String) : Bool :=
  name != "adhoc" && name != LOCAL_NETWORK_NAME && !(strEndsWith name "-fork")

/-- `chain_id`: tries the deposit-contract endpoint; on a `data.chain_id`
payload returns it; otherwise, and also when the attempt raises
`ProviderNotConnectedError`, falls back to the statically configured chain
ID for a live network name, else raises `ProviderNotConnectedError`.  Other
exceptions propagate uncaught. -/
def BeaconProvider.chain_id (p : BeaconProvider P B) : Except ApeError Int :=
  let default_chain_id : Option Int :=
    if isLiveNetworkName p.network.name then some p.network.chain_id else none
  let attempt : Except ApeError (Option Int) :=
    match p.beacon with
    | .error e => .error e
    | .ok b =>
      match b.get_deposit_contract with
      | .error e => .error e
      | .ok (some (some cid)) => .ok (some cid)
      | .ok _ => .ok none
  match attempt with
  | .ok (some cid) => .ok cid
  | .ok none =>
    match default_chain_id with
    | some cid => .ok cid
    | none => .error .providerNotConnected
  | .error .providerNotConnected =>
    match default_chain_id with
    | some cid => .ok cid
    | none => .error .providerNotConnected
  | .error e => .error e

/-- Python `str.isnumeric`, modelled for ASCII content: nonempty and every
character a decimal digit.  Stated on the character list so that it reduces
in the kernel (it agrees with `String.isNat`, whose `String.all` is a
non-reducing position loop). -/
def strIsNumeric (s : String) : Bool :=
  !s.data.isEmpty && s.data.all Char.isDigit

/-- Python `int(s)` on a numeric string: the standard decimal-digit fold.
It agrees with core's `String.toNat?` (same fold), which is implemented by a
non-reducing position loop. -/
def strToNat (s : String) : Nat :=
  s.data.foldl (fun m c => m * 10 + (c.toNat - Char.toNat '0')) 0

/-- The normalisation at the top of `get_block`:
`if isinstance(block_id, str) and block_id.isnumeric(): block_id = int(block_id)`. -/
def normalizeBlockId : BlockID → BlockID
  | .str s => if strIsNumeric s then .int (Int.ofNat (strToNat s)) else .str s
  | b => b

/-- `get_block`: normalises the block ID, looks the block up by
`str(block_id)`, raises `BlockNotFoundError` when the response lacks
`data`/`data.message`, else decodes `data.message` with the ecosystem. -/
def BeaconProvider.get_block (p : BeaconProvider P B) (block_id : BlockID) :
    Except ApeError B :=
  let block_id := normalizeBlockId block_id
  match p.beacon with
  | .error e => .error e
  | .ok b =>
    match b.get_block block_id.toStr with
    | some (some message) => .ok (p.network.ecosystem.decode_block message)
    | _ => .error (.blockNotFound block_id)

/-- `get_balance`: looks the validator up by address, raises
`ValidatorNotFoundError` when the response lacks `data`/`data.balance`,
else returns the balance unchanged. -/
def BeaconProvider.get_balance (p : BeaconProvider P B) (address : String) :
    Except ApeError Int :=
  match p.beacon with
  | .error e => .error e
  | .ok b =>
    match b.get_validator address with
    | some (some balance) => .ok balance
    | _ => .error (.validatorNotFound address)

/-- The network type registered for a name: `create_network_type(*params)`
for a base entry, plain `NetworkAPI` for fork and local entries. -/
inductive NetworkType (π : Type) where
  | created (params : π)
  | networkAPI
  deriving DecidableEq, Repr

/-- The `networks()` plugin hook from `ape_beacon/__init__.py`: for each
`NETWORKS` entry it yields the base network and a `<name>-fork` variant, and
finally the local network, all under the `"beacon"` ecosystem. -/
def networks {π : Type} (NETWORKS : List (String × π)) :
    List (String × String × NetworkType π) :=
  (NETWORKS.flatMap fun np =>
    [("beacon", np.1, NetworkType.created np.2),
     ("beacon", np.1 ++ "-fork", NetworkType.networkAPI)])
  ++ [("beacon", LOCAL_NETWORK_NAME, NetworkType.networkAPI)]

/-- The hypothesis of the `chain_id` fallback: the deposit-contract attempt
raises `ProviderNotConnectedError`, either from the `beacon` property (no
handle) or from the endpoint call itself. -/
def depositCallNotConnected (p : BeaconProvider P B) : Prop :=
  p._beacon = none ∨
    ∃ b, p._beacon = some b ∧ b.get_deposit_contract = .error .providerNotConnected

/-! Concrete fixtures used by the witness theorems. -/

def egBeacon : Beacon Nat :=
  { get_version := some (some "lighthouse/v1")
  , get_health := 200
  , get_deposit_contract := .ok (some (some 1))
  , get_block := fun _ => some (some 7)
  , get_validator := fun _ => some (some 32) }

/-- A beacon whose deposit-contract response lacks the `data` key. -/
def egBeaconNoDeposit : Beacon Nat :=
  { egBeacon with get_deposit_contract := .ok none }

def egNet : Network Nat Nat :=
  { name := "mainnet", chain_id := 1, ecosystem := ⟨fun x => x + 100⟩ }

def egNetLocal : Network Nat Nat :=
  { egNet with name := LOCAL_NETWORK_NAME }

def egConnected : BeaconProvider Nat Nat :=
  { _beacon := some egBeacon, _client_version := none, network := egNet }

def egConnectedNoDeposit : BeaconProvider Nat Nat :=
  { _beacon := some egBeaconNoDeposit, _client_version := none, network := egNet }

def egConnectedNoDepositLocal : BeaconProvider Nat Nat :=
  { _beacon := some egBeaconNoDeposit, _client_version := none, network := egNetLocal }

def egDisconnected : BeaconProvider Nat Nat :=
  { _beacon := none, _client_version := none, network := egNet }

def egDisconnectedLocal : BeaconProvider Nat Nat :=
  { _beacon := none, _client_version := none, network := egNetLocal }

/-- C6: every unsupported operation (`base_fee`, `max_gas`, `supports_tracing`,
`estimate_gas_cost`, `gas_price`, `priority_fee`, `get_nonce`) raises
`APINotImplementedError` on every provider, connected or not, and never
returns a value. -/
theorem unsupported_operations_always_raise (p : BeaconProvider P B) (txn : T)
    (address : String) :
    p.base_fee = .error (.apiNotImplemented "base_fee is not implemented by this provider.") ∧
    p.max_gas = .error (.apiNotImplemented "max_gas is not implemented by this provider.") ∧
    p.supports_tracing =
      .error (.apiNotImplemented "supports_tracing is not implemented by this provider.") ∧
    p.estimate_gas_cost txn =
      .error (.apiNotImplemented "estimate_gas_cost is not implemented by this provider.") ∧
    p.gas_price = .error (.apiNotImplemented "gas_price is not implemented by this provider.") ∧
    p.priority_fee =
      .error (.apiNotImplemented "priority_fee is not implemented by this provider.") ∧
    p.get_nonce address =
      .error (.apiNotImplemented "get_nonce is not implemented by this provider.") :=
  ⟨rfl, rfl, rfl, rfl, rfl, rfl, rfl⟩

/-- C7: `is_connected` is `false` when the client handle is absent, and with a
handle present it is `true` iff the health check returns status code 200. -/
theorem is_connected_iff_health_200 (p : BeaconProvider P B) :
    (p._beacon = none → p.is_connected = false) ∧
    ∀ b, p._beacon = some b → (p.is_connected = true ↔ b.get_health = 200) := by
  constructor
  · intro h
    simp [BeaconProvider.is_connected, h]
  · intro b hb
    simp [BeaconProvider.is_connected, hb]

/-- Witness for C7 at a disconnected and at a healthy connected provider. -/
theorem is_connected_iff_health_200_witness :
    egDisconnected.is_connected = false ∧ egConnected.is_connected = true :=
  ⟨(is_connected_iff_health_200 egDisconnected).1 rfl,
   ((is_connected_iff_health_200 egConnected).2 egBeacon rfl).mpr rfl⟩

/-- C2: with the client handle absent, every `get_block` and every
`get_balance` call raises `ProviderNotConnectedError`. -/
theorem disconnected_queries_raise (p : BeaconProvider P B)
    (h : p._beacon = none) (block_id : BlockID) (address : String) :
    p.get_block block_id = .error .providerNotConnected ∧
    p.get_balance address = .error .providerNotConnected := by
  constructor
  · simp [BeaconProvider.get_block, BeaconProvider.beacon, h]
  · simp [BeaconProvider.get_balance, BeaconProvider.beacon, h]

/-- Witness for C2 at a disconnected provider. -/
theorem disconnected_queries_raise_witness :
    egDisconnected.get_block (BlockID.int 0) = .error .providerNotConnected ∧
    egDisconnected.get_balance "0xabc" = .error .providerNotConnected :=
  disconnected_queries_raise egDisconnected rfl (BlockID.int 0) "0xabc"

/-- C1: when the deposit-contract attempt raises `ProviderNotConnectedError`,
`chain_id` returns the statically configured chain ID for a live network
name (not `"adhoc"`, not the local name, not ending in `"-fork"`) and
re-raises the not-connected error for every other network name. -/
theorem chain_id_fallback_on_not_connected (p : BeaconProvider P B)
    (h : depositCallNotConnected p) :
    (isLiveNetworkName p.network.name = true → p.chain_id = .ok p.network.chain_id) ∧
    (isLiveNetworkName p.network.name = false →
      p.chain_id = .error .providerNotConnected) := by
  rcases h with hnone | ⟨b, hb, hd⟩
  · constructor <;> intro hl <;>
      simp [BeaconProvider.chain_id, BeaconProvider.beacon, hnone, hl]
  · constructor <;> intro hl <;>
      simp [BeaconProvider.chain_id, BeaconProvider.beacon, hb, hd, hl]

/-- Witness for C1: a disconnected provider on `"mainnet"` falls back to the
static chain ID 1; a disconnected provider on the local network re-raises. -/
theorem chain_id_fallback_on_not_connected_witness :
    egDisconnected.chain_id = .ok 1 ∧
    egDisconnectedLocal.chain_id = .error .providerNotConnected :=
  ⟨(chain_id_fallback_on_not_connected egDisconnected (Or.inl rfl)).1 (by decide),
   (chain_id_fallback_on_not_connected egDisconnectedLocal (Or.inl rfl)).2 (by decide)⟩

/-- C9: when the deposit-contract call succeeds but the response lacks
`data`/`data.chain_id`, `chain_id` still returns the static chain ID for a
live network name and raises `ProviderNotConnectedError` otherwise. -/
theorem chain_id_fallback_on_missing_fields (p : BeaconProvider P B) (b : Beacon P)
    (hb : p._beacon = some b) (resp : Resp Int)
    (hresp : b.get_deposit_contract = .ok resp) (hmiss : respMissing resp = true) :
    (isLiveNetworkName p.network.name = true → p.chain_id = .ok p.network.chain_id) ∧
    (isLiveNetworkName p.network.name = false →
      p.chain_id = .error .providerNotConnected) := by
  rcases resp with _ | (_ | v)
  · constructor <;> intro hl <;>
      simp [BeaconProvider.chain_id, BeaconProvider.beacon, hb, hresp, hl]
  · constructor <;> intro hl <;>
      simp [BeaconProvider.chain_id, BeaconProvider.beacon, hb, hresp, hl]
  · simp [respMissing] at hmiss

/-- Witness for C9: a connected provider whose deposit-contract response has
no `data` key falls back to the static chain ID on `"mainnet"` and raises on
the local network. -/
theorem chain_id_fallback_on_missing_fields_witness :
    egConnectedNoDeposit.chain_id = .ok 1 ∧
    egConnectedNoDepositLocal.chain_id = .error .providerNotConnected :=
  ⟨(chain_id_fallback_on_missing_fields egConnectedNoDeposit egBeaconNoDeposit rfl
      none rfl rfl).1 (by decide),
   (chain_id_fallback_on_missing_fields egConnectedNoDepositLocal egBeaconNoDeposit rfl
      none rfl rfl).2 (by decide)⟩

/-- C3: on a connected provider, `get_block` raises exactly when the upstream
response lacks `data`/`data.message` — and then the error is
`BlockNotFoundError` — and otherwise returns the ecosystem's decoding of the
`data.message` payload, for every `block_id`. -/
theorem get_block_not_found_iff (p : BeaconProvider P B) (b : Beacon P)
    (hb : p._beacon = some b) (block_id : BlockID) :
    ((∃ e, p.get_block block_id = .error e) ↔
      respMissing (b.get_block (normalizeBlockId block_id).toStr) = true) ∧
    (respMissing (b.get_block (normalizeBlockId block_id).toStr) = true →
      p.get_block block_id = .error (.blockNotFound (normalizeBlockId block_id))) ∧
    (∀ message, b.get_block (normalizeBlockId block_id).toStr = some (some message) →
      p.get_block block_id = .ok (p.network.ecosystem.decode_block message)) := by
  rcases hresp : b.get_block (normalizeBlockId block_id).toStr with _ | (_ | m) <;>
    simp [BeaconProvider.get_block, BeaconProvider.beacon, hb, hresp, respMissing]

/-- Witness for C3: the fixture beacon returns payload `7` for every key, and
the fixture ecosystem decodes it to `107`. -/
theorem get_block_not_found_iff_witness :
    egConnected.get_block (BlockID.int 0) = .ok 107 :=
  (get_block_not_found_iff egConnected egBeacon rfl (BlockID.int 0)).2.2 7 rfl

/-- C4: on a connected provider, `get_balance` raises exactly when the
upstream validator response lacks `data`/`data.balance` — and then the error
is `ValidatorNotFoundError` — and otherwise returns `data.balance` unchanged,
for every address. -/
theorem get_balance_not_found_iff (p : BeaconProvider P B) (b : Beacon P)
    (hb : p._beacon = some b) (address : String) :
    ((∃ e, p.get_balance address = .error e) ↔
      respMissing (b.get_validator address) = true) ∧
    (respMissing (b.get_validator address) = true →
      p.get_balance address = .error (.validatorNotFound address)) ∧
    (∀ balance, b.get_validator address = some (some balance) →
      p.get_balance address = .ok balance) := by
  rcases hresp : b.get_validator address with _ | (_ | v) <;>
    simp [BeaconProvider.get_balance, BeaconProvider.beacon, hb, hresp, respMissing]

/-- Witness for C4: the fixture beacon reports balance `32` for every
validator. -/
theorem get_balance_not_found_iff_witness :
    egConnected.get_balance "0xabc" = .ok 32 :=
  (get_balance_not_found_iff egConnected egBeacon rfl "0xabc").2.2 32 rfl

/-- C10: `client_version` is a total, never-raising operation: it returns
`""` when the handle is absent or the version response lacks
`data`/`data.version`, returns `data.version` and caches it when the cache is
unset, returns the cached value when set, and a second call after caching
returns the cached value unchanged. -/
theorem client_version_never_raises (p : BeaconProvider P B) :
    (p._beacon = none → p.client_version = ("", p)) ∧
    (∀ b, p._beacon = some b → p._client_version = none →
      (respMissing b.get_version = true → p.client_version = ("", p)) ∧
      (∀ v, b.get_version = some (some v) →
        p.client_version = (v, { p with _client_version := some v }))) ∧
    (∀ b v, p._beacon = some b → p._client_version = some v →
      p.client_version = (v, p)) ∧
    (∀ b v, p._beacon = some b → p._client_version = none →
      b.get_version = some (some v) →
      (p.client_version.2).client_version = (v, p.client_version.2)) := by
  refine ⟨fun h => by simp [BeaconProvider.client_version, h], ?_, ?_, ?_⟩
  · intro b hb hcv
    constructor
    · intro hmiss
      rcases hv : b.get_version with _ | (_ | v)
      · simp [BeaconProvider.client_version, hb, hcv, hv]
      · simp [BeaconProvider.client_version, hb, hcv, hv]
      · simp [respMissing, hv] at hmiss
    · intro v hv
      simp [BeaconProvider.client_version, hb, hcv, hv]
  · intro b v hb hcv
    simp [BeaconProvider.client_version, hb, hcv]
  · intro b v hb hcv hv
    simp [BeaconProvider.client_version, hb, hcv, hv]

/-- Witness for C10: the connected fixture provider caches and returns the
reported version; the disconnected one returns the empty string. -/
theorem client_version_never_raises_witness :
    egConnected.client_version =
      ("lighthouse/v1", { egConnected with _client_version := some "lighthouse/v1" }) ∧
    egDisconnected.client_version = ("", egDisconnected) :=
  ⟨((client_version_never_raises egConnected).2.1 egBeacon rfl rfl).2 "lighthouse/v1" rfl,
   (client_version_never_raises egDisconnected).1 rfl⟩

/-- C8: the registered network list consists exactly of, for each entry of
the configured table, the base name with its created network type and the
`<name>-fork` variant, plus the single local network entry, all under the
`"beacon"` ecosystem name. -/
theorem networks_registration {π : Type} (NETWORKS : List (String × π)) :
    (∀ t, t ∈ networks NETWORKS ↔
      ((∃ np ∈ NETWORKS, t = ("beacon", np.1, NetworkType.created np.2) ∨
          t = ("beacon", np.1 ++ "-fork", NetworkType.networkAPI)) ∨
        t = ("beacon", LOCAL_NETWORK_NAME, NetworkType.networkAPI))) ∧
    (∀ t ∈ networks NETWORKS, t.1 = "beacon") := by
  have hmem : ∀ t, t ∈ networks NETWORKS ↔
      ((∃ np ∈ NETWORKS, t = ("beacon", np.1, NetworkType.created np.2) ∨
          t = ("beacon", np.1 ++ "-fork", NetworkType.networkAPI)) ∨
        t = ("beacon", LOCAL_NETWORK_NAME, NetworkType.networkAPI)) := by
    intro t
    simp [networks, List.mem_flatMap, List.mem_append]
  refine ⟨hmem, ?_⟩
  intro t ht
  rcases (hmem t).mp ht with ⟨np, _, h | h⟩ | h <;> (subst h; rfl)

/-- Witness for C8 at a one-entry network table. -/
theorem networks_registration_witness :
    ("beacon", "mainnet", NetworkType.created ((1 : Int), (1 : Int))) ∈
      networks [("mainnet", ((1 : Int), (1 : Int)))] ∧
    ("beacon", "mainnet-fork", NetworkType.networkAPI) ∈
      networks [("mainnet", ((1 : Int), (1 : Int)))] ∧
    ("beacon", LOCAL_NETWORK_NAME, (NetworkType.networkAPI : NetworkType (Int × Int))) ∈
      networks [("mainnet", ((1 : Int), (1 : Int)))] :=
  ⟨((networks_registration [("mainnet", ((1 : Int), (1 : Int)))]).1 _).mpr
      (Or.inl ⟨("mainnet", ((1 : Int), (1 : Int))), by simp, Or.inl rfl⟩),
   ((networks_registration [("mainnet", ((1 : Int), (1 : Int)))]).1 _).mpr
      (Or.inl ⟨("mainnet", ((1 : Int), (1 : Int))), by simp, Or.inr rfl⟩),
   ((networks_registration [("mainnet", ((1 : Int), (1 : Int)))]).1 _).mpr
      (Or.inr rfl)⟩

/-! Decimal-printing facts used to settle the numeric-string normalisation:
`Nat.repr n` parses back to `n` with `String.toNat?`. -/

theorem toDigitsCore_succ (fuel n : Nat) (ds : List Char) :
    Nat.toDigitsCore 10 (fuel + 1) n ds =
      if n / 10 = 0 then Nat.digitChar (n % 10) :: ds
      else Nat.toDigitsCore 10 fuel (n / 10) (Nat.digitChar (n % 10) :: ds) := by
  simp [Nat.toDigitsCore]

theorem toDigitsCore_shift (n : Nat) : ∀ (fuel : Nat) (ds : List Char), n < fuel →
    Nat.toDigitsCore 10 fuel n ds = Nat.toDigits 10 n ++ ds := by
  induction n using Nat.strong_induction_on with
  | _ n ih =>
    intro fuel ds hfuel
    obtain ⟨f, rfl⟩ : ∃ f, fuel = f + 1 := ⟨fuel - 1, by omega⟩
    rw [Nat.toDigits, toDigitsCore_succ, toDigitsCore_succ]
    by_cases h0 : n / 10 = 0
    · simp [h0]
    · rw [if_neg h0, if_neg h0]
      have hlt : n / 10 < n := Nat.div_lt_self (by omega) (by omega)
      rw [ih (n / 10) hlt f (Nat.digitChar (n % 10) :: ds) (by omega),
        ih (n / 10) hlt n [Nat.digitChar (n % 10)] hlt]
      simp

theorem toDigits_lt_ten (n : Nat) (h : n < 10) :
    Nat.toDigits 10 n = [Nat.digitChar n] := by
  rw [Nat.toDigits, toDigitsCore_succ]
  have h0 : n / 10 = 0 := Nat.div_eq_of_lt h
  rw [if_pos h0, Nat.mod_eq_of_lt h]

theorem toDigits_ten_le (n : Nat) (h : 10 ≤ n) :
    Nat.toDigits 10 n = Nat.toDigits 10 (n / 10) ++ [Nat.digitChar (n % 10)] := by
  rw [Nat.toDigits, toDigitsCore_succ]
  have h0 : ¬ n / 10 = 0 := by omega
  rw [if_neg h0]
  exact toDigitsCore_shift (n / 10) n [Nat.digitChar (n % 10)]
    (Nat.div_lt_self (by omega) (by omega))

theorem digitChar_isDigit {n : Nat} (h : n < 10) :
    (Nat.digitChar n).isDigit = true := by
  interval_cases n <;> decide

theorem digitChar_sub_zero {n : Nat} (h : n < 10) :
    (Nat.digitChar n).toNat - Char.toNat '0' = n := by
  interval_cases n <;> decide

theorem toDigits_all_isDigit (n : Nat) :
    ∀ c ∈ Nat.toDigits 10 n, c.isDigit = true := by
  induction n using Nat.strong_induction_on with
  | _ n ih =>
    by_cases h : n < 10
    · rw [toDigits_lt_ten n h]
      intro c hc
      rw [List.mem_singleton] at hc
      subst hc
      exact digitChar_isDigit h
    · rw [toDigits_ten_le n (by omega)]
      intro c hc
      rcases List.mem_append.mp hc with h1 | h2
      · exact ih (n / 10) (Nat.div_lt_self (by omega) (by omega)) c h1
      · rw [List.mem_singleton] at h2
        subst h2
        exact digitChar_isDigit (Nat.mod_lt n (by omega))

theorem toDigits_ne_nil (n : Nat) : Nat.toDigits 10 n ≠ [] := by
  by_cases h : n < 10
  · rw [toDigits_lt_ten n h]
    simp
  · rw [toDigits_ten_le n (by omega)]
    simp

theorem toDigits_foldl (n : Nat) : ∀ a : Nat,
    List.foldl (fun m c => m * 10 + (c.toNat - Char.toNat '0')) a (Nat.toDigits 10 n) =
      a * 10 ^ (Nat.toDigits 10 n).length + n := by
  induction n using Nat.strong_induction_on with
  | _ n ih =>
    intro a
    by_cases h : n < 10
    · rw [toDigits_lt_ten n h]
      simp only [List.foldl_cons, List.foldl_nil, List.length_cons, List.length_nil,
        digitChar_sub_zero h, pow_one, Nat.zero_add, pow_zero]
    · have h10 : 10 ≤ n := by omega
      rw [toDigits_ten_le n h10, List.foldl_append, List.length_append,
        ih (n / 10) (Nat.div_lt_self (by omega) (by omega)) a]
      have hm : n % 10 < 10 := Nat.mod_lt n (by omega)
      simp only [List.foldl_cons, List.foldl_nil, List.length_cons, List.length_nil,
        digitChar_sub_zero hm]
      have hdm : 10 * (n / 10) + n % 10 = n := Nat.div_add_mod n 10
      calc (a * 10 ^ (Nat.toDigits 10 (n / 10)).length + n / 10) * 10 + n % 10
          = a * (10 ^ (Nat.toDigits 10 (n / 10)).length * 10) +
              (10 * (n / 10) + n % 10) := by ring
        _ = a * 10 ^ ((Nat.toDigits 10 (n / 10)).length + 1) + n := by
            rw [← pow_succ, hdm]

theorem strIsNumeric_repr (n : Nat) : strIsNumeric (Nat.repr n) = true := by
  have h1 : (Nat.toDigits 10 n).isEmpty = false := by
    rcases hd : Nat.toDigits 10 n with _ | _
    · exact absurd hd (toDigits_ne_nil n)
    · rfl
  have h2 : (Nat.toDigits 10 n).all Char.isDigit = true :=
    List.all_eq_true.mpr (toDigits_all_isDigit n)
  show (!(Nat.toDigits 10 n).isEmpty && (Nat.toDigits 10 n).all Char.isDigit) = true
  rw [h1, h2]
  rfl

theorem strToNat_repr (n : Nat) : strToNat (Nat.repr n) = n := by
  show List.foldl (fun m c => m * 10 + (c.toNat - Char.toNat '0')) 0
      (Nat.toDigits 10 n) = n
  rw [toDigits_foldl n 0]
  simp

/-- C5: `get_block` on the decimal string of `n` and `get_block` on the
integer `n` produce identical results on every provider (in particular on
every connected one): the numeric string is normalised to the integer before
the lookup. -/
theorem get_block_decimal_string (p : BeaconProvider P B) (n : Nat) :
    p.get_block (BlockID.str (Nat.repr n)) = p.get_block (BlockID.int (Int.ofNat n)) := by
  have hnorm : normalizeBlockId (BlockID.str (Nat.repr n)) = BlockID.int (Int.ofNat n) := by
    simp [normalizeBlockId, strIsNumeric_repr n, strToNat_repr n]
  have hnorm2 : normalizeBlockId (BlockID.int (Int.ofNat n)) = BlockID.int (Int.ofNat n) := rfl
  simp only [BeaconProvider.get_block, hnorm, hnorm2]

end ApeBeacon
